import Mathlib

/-!
# Verification of the RFID access-control endpoint (`src/espcode.ino`)

Shallow embedding of the core control logic of the ESP32 sketch:
the URL percent-encoder (`urlEncode`), the HTTP engine with its single
redirect hop (`httpGET`), the Wi-Fi connect loop (`wifiConnect`), the
response classifier and feedback dispatcher (`handleRequest`), the card
debounce filter (`readRFIDCard`), and the card branch of `loop`
(`cardStep`).  Machine integers (`unsigned long` from `millis()`) are
modelled as `Nat` with explicit wrap-around subtraction modulo `2^32`.
External collaborators (the Wi-Fi stack, the HTTP client, the RC522
reader) are oracles passed in as function arguments; every observable
effect (peer serial lines, indicator patterns, issued GET requests) is
returned explicitly.
-/

namespace Esp

/-- `2^32`, the modulus of `unsigned long` arithmetic on the ESP32. -/
def UINT32_MOD : Nat := 4294967296

/-- Unsigned 32-bit subtraction `a - b`, as computed by expressions such as
`millis() - lastCardRead` on `unsigned long` values. -/
def usub32 (a b : Nat) : Nat :=
  (a % UINT32_MOD + (UINT32_MOD - b % UINT32_MOD)) % UINT32_MOD

/-- C `isalnum` on a byte in the "C" locale: ASCII digits and letters
(`espcode.ino` line 198). -/
def isalnum (c : Nat) : Bool :=
  (48 ≤ c && c ≤ 57) || (65 ≤ c && c ≤ 90) || (97 ≤ c && c ≤ 122)

/-- The byte of an uppercase hexadecimal digit, as produced by
`sprintf(buf, "%%%02X", byte)` for one nibble (`espcode.ino` line 202). -/
def hexDigitU (d : Nat) : Nat := if d < 10 then 48 + d else 55 + d

/-- `urlEncode` (`espcode.ino` lines 193–207) over the byte sequence of the
input string: safe bytes are appended unchanged, every other byte `c` is
appended as `%` and the two hex digits of `(uint8_t)c` (modelled `c % 256`). -/
def urlEncode (s : List Nat) : List Nat :=
  s.foldl (fun out c =>
    if isalnum c || c == 45 || c == 95 || c == 46 || c == 126 then
      out ++ [c]
    else
      out ++ [37, hexDigitU (c % 256 / 16), hexDigitU (c % 256 % 16)]) []

/-- Bytes of an ASCII string (each `Char` of the sketch's `String` values is
a single ASCII byte). -/
def strBytes (s : String) : List Nat := s.data.map Char.toNat

/-- ASCII string of a byte list. -/
def bytesStr (l : List Nat) : String := String.mk (l.map Char.ofNat)

/-- `urlEncode` applied to an ASCII `String`, returning a `String`. -/
def urlEncodeStr (s : String) : String := bytesStr (urlEncode (strBytes s))

/-- One step of `urlEncode`'s loop body: the output bytes contributed by a
single input byte. -/
def encodeByte (c : Nat) : List Nat :=
  if isalnum c || c == 45 || c == 95 || c == 46 || c == 126 then [c]
  else [37, hexDigitU (c % 256 / 16), hexDigitU (c % 256 % 16)]

/-- The characters the specification's percent-encoding rule passes through
unmodified: `[A-Za-z0-9]`, `-`, `_`, `.`, `~` (as byte values). -/
def SafeByte (c : Nat) : Prop :=
  (48 ≤ c ∧ c ≤ 57) ∨ (65 ≤ c ∧ c ≤ 90) ∨ (97 ≤ c ∧ c ≤ 122) ∨
    c = 45 ∨ c = 95 ∨ c = 46 ∨ c = 126

instance (c : Nat) : Decidable (SafeByte c) := by
  unfold SafeByte; infer_instance

/-- Arduino `String.indexOf(pat)` search over character lists: the position
of the first occurrence of `pat`, if any, starting the count at `i`. -/
def subIndexAux (pat : List Char) : List Char → Nat → Option Nat
  | [], i => if pat.isPrefixOf [] then some i else none
  | c :: rest, i =>
      if pat.isPrefixOf (c :: rest) then some i else subIndexAux pat rest (i + 1)

/-- Arduino `String.indexOf(pat)`: index of the first occurrence of `pat` in
`s`, or `-1` when `pat` does not occur. -/
def indexOfSub (s pat : String) : Int :=
  match subIndexAux pat.data s.data 0 with
  | some i => Int.ofNat i
  | none => -1

/-- The test `s.indexOf(pat) >= 0` of `espcode.ino` lines 120 and 124. -/
def containsSub (s pat : String) : Bool := decide (0 ≤ indexOfSub s pat)

/-- What one `http.begin(url); http.GET()` exchange yields: the status code
returned by `GET` (negative on client-level failure), the `Location` header
(`http.getLocation()`) and the body (`http.getString()`). -/
structure HttpResponse where
  code : Int
  location : String
  body : String
deriving DecidableEq

/-- The network environment seen by the sketch: the Wi-Fi link state
(`WiFi.status() == WL_CONNECTED`) and an oracle giving the response of a
GET to a URL with a given timeout. -/
structure Net where
  wifiConnected : Bool
  fetch : String → Nat → HttpResponse

/-- What `httpGET` leaves behind: its return value `ok`, the out-parameters
`resp` and `code`, and the trace of `(url, timeout)` pairs of the GET
requests it actually issued, in order. -/
structure HttpResult where
  ok : Bool
  resp : String
  code : Int
  trace : List (String × Nat)
deriving DecidableEq

/-- `httpGET` (`espcode.ino` lines 209–231).  `resp0` is the value the
caller's `resp` variable holds on entry (it is only overwritten when the
final status code is positive). -/
def httpGET (net : Net) (url resp0 : String) : HttpResult :=
  if !net.wifiConnected then
    { ok := false, resp := "no_wifi", code := -1, trace := [] }
  else
    let r1 := net.fetch url 10000
    if r1.code == 302 || r1.code == 301 then
      let newUrl := r1.location
      let r2 := net.fetch newUrl 10000
      { ok := r2.code == 200
        resp := if r2.code > 0 then r2.body else resp0
        code := r2.code
        trace := [(url, 10000), (newUrl, 10000)] }
    else
      { ok := r1.code == 200
        resp := if r1.code > 0 then r1.body else resp0
        code := r1.code
        trace := [(url, 10000)] }

/-- The response `httpGET` ends up classifying: the first response, or, when
that one is a 301/302 redirect, the response fetched from its `Location`. -/
def finalResponse (net : Net) (url : String) : HttpResponse :=
  let r1 := net.fetch url 10000
  if r1.code == 302 || r1.code == 301 then net.fetch r1.location 10000 else r1

/-- The specification's `RequestOutcome`: tagged result of one logical GET. -/
inductive RequestOutcome where
  | TransportFailure
  | HttpFailure (code : Int)
  | Success (body : String)
deriving DecidableEq

/-- The `RequestOutcome` realised by a call `httpGET net url` (started with
an empty `resp`, as in `handleRequest`): `ok` means `Success`, otherwise the
failure is a transport failure exactly when the link was down. -/
def requestOutcome (net : Net) (url : String) : RequestOutcome :=
  let r := httpGET net url ""
  if r.ok then .Success r.resp
  else if net.wifiConnected then .HttpFailure r.code
  else .TransportFailure

/-- The three indicator patterns of the sketch: `signalSuccess`
(lines 166–173), `signalFailure` (lines 175–185), `signalCardRead`
(lines 187–191). -/
inductive SignalPattern where
  | success
  | failure
  | cardRead
deriving DecidableEq

/-- The specification's `AccessResult`. -/
inductive AccessResult where
  | Granted
  | Ended
  | Denied
  | RequestFailed
deriving DecidableEq

/-- The decision structure of `handleRequest` (`espcode.ino` lines 118–137):
how the controller classifies the pair (return value of `httpGET`, response
body). -/
def classify (ok : Bool) (resp : String) : AccessResult :=
  if ok then
    if containsSub resp "session_started" then .Granted
    else if containsSub resp "session_ended" then .Ended
    else .Denied
  else .RequestFailed

/-- The peer line (`espSerial.println`) the controller sends for each
classified outcome. -/
def peerLineFor : AccessResult → String
  | .Granted => "Access Granted!"
  | .Ended => "Session Ended"
  | .Denied => "Access Denied"
  | .RequestFailed => "Request Failed"

/-- The indicator pattern the controller fires for each classified outcome. -/
def patternFor : AccessResult → SignalPattern
  | .Granted => .success
  | .Ended => .success
  | .Denied => .failure
  | .RequestFailed => .failure

/-- `SCRIPT_BASE` (`espcode.ino` line 26). -/
def SCRIPT_BASE : String :=
  "https://script.google.com/macros/s/AKfycbyEGUR1FRdfk7YMI5OBE2xLlGyZv86cK07ym2Ysjng2Kg0MwkFHF4OCLEy446Isw617/exec"

/-- `TOKEN` (`espcode.ino` line 29). -/
def TOKEN : String := "RSP505"

/-- The request URL built by `handleRequest` (`espcode.ino` line 113). -/
def requestUrl (uid : String) : String :=
  SCRIPT_BASE ++ "?mode=check_and_toggle&uid=" ++ urlEncodeStr uid ++
    "&token=" ++ urlEncodeStr TOKEN

/-- Observable effects of one `handleRequest` call: peer serial lines,
indicator patterns fired, and the GET requests issued (with timeouts). -/
structure HandleOut where
  peer : List String
  patterns : List SignalPattern
  requests : List (String × Nat)
deriving DecidableEq

/-- `handleRequest` (`espcode.ino` lines 112–138). -/
def handleRequest (net : Net) (uid : String) : HandleOut :=
  let url := requestUrl uid
  let r := httpGET net url ""
  if r.ok then
    if containsSub r.resp "session_started" then
      { peer := ["Access Granted!"], patterns := [.success], requests := r.trace }
    else if containsSub r.resp "session_ended" then
      { peer := ["Session Ended"], patterns := [.success], requests := r.trace }
    else
      { peer := ["Access Denied"], patterns := [.failure], requests := r.trace }
  else
    { peer := ["Request Failed"], patterns := [.failure], requests := r.trace }

/-- `CARD_DEBOUNCE` (`espcode.ino` line 41). -/
def CARD_DEBOUNCE : Nat := 2000

/-- The debounce state: globals `lastUID` (line 39) and `lastCardRead`
(line 40). -/
structure DebState where
  lastUID : String
  lastCardRead : Nat
deriving DecidableEq

/-- The initial debounce state (`String lastUID = ""`,
`unsigned long lastCardRead = 0`). -/
def initState : DebState := { lastUID := "", lastCardRead := 0 }

/-- Arduino `String(b, HEX)` for a byte value `b < 256`: lowercase hex
digits, no leading zero. -/
def byteHexL (b : Nat) : String :=
  if b < 16 then
    String.mk [Char.ofNat (if b < 10 then 48 + b else 87 + b)]
  else
    String.mk [Char.ofNat (if b / 16 < 10 then 48 + b / 16 else 87 + b / 16),
               Char.ofNat (if b % 16 < 10 then 48 + b % 16 else 87 + b % 16)]

/-- Arduino `String.toUpperCase()`: uppercase each (ASCII) character. -/
def strToUpper (s : String) : String := String.mk (s.data.map Char.toUpper)

/-- The UID string built by `readRFIDCard` (`espcode.ino` lines 141–146):
for each UID byte, a `"0"` pad when the byte is below `0x10`, then its hex
rendering; finally `toUpperCase`. -/
def renderUID (uidBytes : List Nat) : String :=
  strToUpper (uidBytes.foldl (fun acc b =>
    acc ++ (if b % 256 < 16 then "0" else "") ++ byteHexL (b % 256)) "")

/-- Result of the card-processing path: the new debounce state and the
observable effects (peer lines, indicator patterns, GET requests issued). -/
structure StepOut where
  state : DebState
  peer : List String
  patterns : List SignalPattern
  requests : List (String × Nat)
deriving DecidableEq

/-- `readRFIDCard` (`espcode.ino` lines 140–164).  `now` is the value of
`millis()` at the debounce test of line 150.  On suppression the function
only halts the card session; otherwise it fires the read-acknowledge pulse,
runs `handleRequest`, and records the UID in `lastUID`. -/
def readRFIDCard (net : Net) (s : DebState) (uidBytes : List Nat) (now : Nat) :
    StepOut :=
  let cardUID := renderUID uidBytes
  if cardUID = s.lastUID ∧ usub32 now s.lastCardRead < CARD_DEBOUNCE then
    { state := s, peer := [], patterns := [], requests := [] }
  else
    let h := handleRequest net cardUID
    { state := { s with lastUID := cardUID }
      peer := h.peer
      patterns := .cardRead :: h.patterns
      requests := h.requests }

/-- What the reader presented during one `loop` turn: no card, a card whose
serial read failed (`PICC_ReadCardSerial()` false), or a card with the given
UID bytes. -/
inductive CardEvent where
  | noCard
  | readFail
  | card (uidBytes : List Nat)

/-- The card branch of `loop` (`espcode.ino` lines 92–100).  `tRead` is
`millis()` at the debounce test inside `readRFIDCard`; `tDone` is `millis()`
at line 95, after the whole request/feedback cycle.  Note that line 95 runs
whenever the serial read succeeded — also when `readRFIDCard` suppressed the
presentation. -/
def cardStep (net : Net) (s : DebState) (ev : CardEvent) (tRead tDone : Nat) :
    StepOut :=
  match ev with
  | .noCard => { state := s, peer := [], patterns := [], requests := [] }
  | .readFail => { state := s, peer := [], patterns := [.failure], requests := [] }
  | .card uidBytes =>
      let r := readRFIDCard net s uidBytes tRead
      { r with state := { r.state with lastCardRead := tDone } }

/-- The `while` loop of `wifiConnect` (`espcode.ino` line 239): starting
from `elapsed` milliseconds after `connectStart`, poll every 500 ms while
the link is down and fewer than 20000 ms have elapsed; the result is the
elapsed time at exit.  `stat t` is `WiFi.status() == WL_CONNECTED` at
absolute time `t`. -/
def connectWait (stat : Nat → Bool) (start elapsed : Nat) : Nat :=
  if stat (start + elapsed) = false ∧ elapsed < 20000 then
    connectWait stat start (elapsed + 500)
  else elapsed
termination_by 20000 - elapsed
decreasing_by omega

/-- Observable outcome of `wifiConnect`: elapsed blocking time, the final
link state, and whether the fault indicator (red LED, line 249) was raised. -/
structure WifiOut where
  elapsed : Nat
  connected : Bool
  faultRaised : Bool
deriving DecidableEq

/-- `wifiConnect` (`espcode.ino` lines 233–251). -/
def wifiConnect (stat : Nat → Bool) (start : Nat) : WifiOut :=
  let e := connectWait stat start 0
  let c := stat (start + e)
  { elapsed := e, connected := c, faultRaised := !c }

/-- A concrete environment: link up, every GET answered with status 200 and
the body `"denied"` (neither marker). -/
def deniedNet : Net :=
  { wifiConnected := true
    fetch := fun _ _ => { code := 200, location := "", body := "denied" } }

/-- A concrete environment with the link down. -/
def downNet : Net :=
  { wifiConnected := false
    fetch := fun _ _ => { code := 0, location := "", body := "" } }

/-- A concrete environment with a redirect chain `"A"` → `"B"` → `"C"`:
`"A"` answers 301 pointing at `"B"`, `"B"` answers 302 pointing at `"C"`,
anything else answers 200. -/
def hopNet : Net :=
  { wifiConnected := true
    fetch := fun u _ =>
      if u = "A" then { code := 301, location := "B", body := "" }
      else if u = "B" then { code := 302, location := "C", body := "bodyB" }
      else { code := 200, location := "", body := "bodyC" } }

/-! ## Helper lemmas -/

/-- When no wrap-around occurs, `usub32` is plain subtraction. -/
theorem usub32_eq_sub (a b : Nat) (hle : b ≤ a) (ha : a < UINT32_MOD) :
    usub32 a b = a - b := by
  unfold usub32 UINT32_MOD at *
  omega

/-- `urlEncode` is the per-byte map `encodeByte`, concatenated. -/
theorem urlEncode_flatMap (s : List Nat) :
    urlEncode s = s.flatMap encodeByte := by
  have gen : ∀ (t : List Nat) (acc : List Nat),
      t.foldl (fun out c =>
        if isalnum c || c == 45 || c == 95 || c == 46 || c == 126 then
          out ++ [c]
        else
          out ++ [37, hexDigitU (c % 256 / 16), hexDigitU (c % 256 % 16)]) acc
        = acc ++ t.flatMap encodeByte := by
    intro t
    induction t with
    | nil => intro acc; simp
    | cons c rest ih =>
        intro acc
        simp only [List.foldl_cons, List.flatMap_cons, ih, encodeByte]
        split <;> simp
  unfold urlEncode
  rw [gen s []]
  simp

/-- The source's safe-character test agrees with the specification's set
`[A-Za-z0-9]`, `-`, `_`, `.`, `~`. -/
theorem safe_iff (c : Nat) :
    (isalnum c || c == 45 || c == 95 || c == 46 || c == 126) = true ↔ SafeByte c := by
  simp [isalnum, SafeByte, Bool.or_eq_true, decide_eq_true_iff]
  omega

/-- `handleRequest` emits exactly the peer line and the pattern of the
classification of its `httpGET` call, and issues exactly the requests that
call traced. -/
theorem handleRequest_eq (net : Net) (uid : String) :
    handleRequest net uid =
      { peer := [peerLineFor (classify (httpGET net (requestUrl uid) "").ok
                                       (httpGET net (requestUrl uid) "").resp)]
        patterns := [patternFor (classify (httpGET net (requestUrl uid) "").ok
                                          (httpGET net (requestUrl uid) "").resp)]
        requests := (httpGET net (requestUrl uid) "").trace } := by
  cases hok : (httpGET net (requestUrl uid) "").ok with
  | false => simp [handleRequest, classify, hok, peerLineFor, patternFor]
  | true =>
    cases hs : containsSub (httpGET net (requestUrl uid) "").resp "session_started" with
    | true => simp [handleRequest, classify, hok, hs, peerLineFor, patternFor]
    | false =>
      cases he : containsSub (httpGET net (requestUrl uid) "").resp "session_ended" with
      | true => simp [handleRequest, classify, hok, hs, he, peerLineFor, patternFor]
      | false => simp [handleRequest, classify, hok, hs, he, peerLineFor, patternFor]

/-- With the link up, `httpGET` returns the status code of the final
response (after at most one redirect hop), succeeds exactly on status 200,
and hands back that response's body whenever the status is positive. -/
theorem httpGET_final (net : Net) (url resp0 : String) (hw : net.wifiConnected = true) :
    (httpGET net url resp0).code = (finalResponse net url).code ∧
    (httpGET net url resp0).ok = ((finalResponse net url).code == 200) ∧
    (httpGET net url resp0).resp =
      (if (finalResponse net url).code > 0 then (finalResponse net url).body else resp0) := by
  unfold httpGET finalResponse
  simp only [hw, Bool.not_true, Bool.false_eq_true, if_false]
  split <;> simp

/-- The exit behaviour of the polling loop of `wifiConnect`: the elapsed
time stays within the 20000 ms budget, is a multiple of the 500 ms polling
interval, and at exit either the link is up or the full budget was spent. -/
theorem connectWait_props (stat : Nat → Bool) (start : Nat) :
    ∀ n elapsed, 20000 - elapsed ≤ n → elapsed % 500 = 0 → elapsed ≤ 20000 →
      connectWait stat start elapsed ≤ 20000 ∧
      connectWait stat start elapsed % 500 = 0 ∧
      (stat (start + connectWait stat start elapsed) = true ∨
        connectWait stat start elapsed = 20000) := by
  intro n
  induction n with
  | zero =>
      intro elapsed h1 h2 h3
      have he : elapsed = 20000 := by omega
      subst he
      rw [connectWait]
      simp
  | succ n ih =>
      intro elapsed h1 h2 h3
      rw [connectWait]
      by_cases hc : stat (start + elapsed) = false ∧ elapsed < 20000
      · rw [if_pos hc]
        exact ih (elapsed + 500) (by omega) (by omega) (by omega)
      · rw [if_neg hc]
        refine ⟨h3, h2, ?_⟩
        by_cases hs : stat (start + elapsed) = true
        · exact Or.inl hs
        · right
          have hf : stat (start + elapsed) = false := by
            cases hb : stat (start + elapsed)
            · rfl
            · exact absurd hb hs
          have : ¬elapsed < 20000 := fun hlt => hc ⟨hf, hlt⟩
          omega

/-! ## The claims -/

/-- Claim C1: for every 200-status response body (`requestOutcome` equal to
`Success body`), the controller's decision (`classify`, the branch structure
of `handleRequest`) is `Granted` when the body contains the substring
`"session_started"`, otherwise `Ended` when it contains `"session_ended"`,
otherwise `Denied`; any `TransportFailure` or `HttpFailure` is classified as
`RequestFailed`; and the `"session_started"` test comes first, so it wins
when both markers are present. -/
theorem claim_c1 (net : Net) (url body : String) (code : Int) :
    (requestOutcome net url = .Success body →
      classify (httpGET net url "").ok (httpGET net url "").resp =
        (if containsSub body "session_started" then .Granted
         else if containsSub body "session_ended" then .Ended
         else .Denied)) ∧
    (requestOutcome net url = .TransportFailure →
      classify (httpGET net url "").ok (httpGET net url "").resp = .RequestFailed) ∧
    (requestOutcome net url = .HttpFailure code →
      classify (httpGET net url "").ok (httpGET net url "").resp = .RequestFailed) ∧
    (∀ b : String, containsSub b "session_started" = true →
      containsSub b "session_ended" = true → classify true b = .Granted) := by
  refine ⟨?_, ?_, ?_, ?_⟩
  · intro h
    cases hok : (httpGET net url "").ok with
    | false =>
        simp [requestOutcome, hok] at h
        rcases em (net.wifiConnected = true) with hw | hw <;> simp [hw] at h
    | true =>
        have hb : (httpGET net url "").resp = body := by
          simp [requestOutcome, hok] at h
          exact h
        simp [classify, hok, hb]
  · intro h
    cases hok : (httpGET net url "").ok with
    | false => simp [classify]
    | true => simp [requestOutcome, hok] at h
  · intro h
    cases hok : (httpGET net url "").ok with
    | false => simp [classify]
    | true => simp [requestOutcome, hok] at h
  · intro b h1 h2
    simp [classify, h1]

/-- Claim C2, amended: the debounce filter suppresses a presentation iff the
identifier equals the previously accepted identifier (`lastUID`) AND the
time elapsed since the last successful serial read — accepted or suppressed,
not only since the last accepted read — is strictly below 2000 ms; a
suppressed presentation causes no peer line, no feedback pattern and no GET
request.  The second conjunct records why the window slides: `loop` stores
`millis()` into `lastCardRead` after every successful serial read. -/
theorem claim_c2_amended (net : Net) (s : DebState) (uidBytes : List Nat)
    (tRead tDone : Nat) :
    ((renderUID uidBytes = s.lastUID ∧ usub32 tRead s.lastCardRead < CARD_DEBOUNCE) ↔
      ((cardStep net s (.card uidBytes) tRead tDone).peer = [] ∧
       (cardStep net s (.card uidBytes) tRead tDone).patterns = [] ∧
       (cardStep net s (.card uidBytes) tRead tDone).requests = [])) ∧
    (cardStep net s (.card uidBytes) tRead tDone).state.lastCardRead = tDone := by
  by_cases h : renderUID uidBytes = s.lastUID ∧ usub32 tRead s.lastCardRead < CARD_DEBOUNCE
  · simp [cardStep, readRFIDCard, h]
  · simp [cardStep, readRFIDCard, h]

/-- Claim C2, counterexample to the claim as stated.  Card `DEAD` is
presented at times 0 (accepted: effects fire), 1500 (suppressed) and 3000.
At time 3000 the time elapsed since the last ACCEPTED read is 3000 ≥ 2000,
so by the claim the presentation must not be suppressed — but the code
suppresses it (no peer line, no pattern, no request), because the suppressed
presentation at 1500 refreshed `lastCardRead`. -/
theorem claim_c2_cex :
    (cardStep deniedNet initState (.card [222, 173]) 0 0).patterns ≠ [] ∧
    (cardStep deniedNet (cardStep deniedNet initState (.card [222, 173]) 0 0).state
        (.card [222, 173]) 1500 1500).patterns = [] ∧
    (cardStep deniedNet (cardStep deniedNet (cardStep deniedNet initState
        (.card [222, 173]) 0 0).state (.card [222, 173]) 1500 1500).state
        (.card [222, 173]) 3000 3000).peer = [] ∧
    (cardStep deniedNet (cardStep deniedNet (cardStep deniedNet initState
        (.card [222, 173]) 0 0).state (.card [222, 173]) 1500 1500).state
        (.card [222, 173]) 3000 3000).patterns = [] ∧
    (cardStep deniedNet (cardStep deniedNet (cardStep deniedNet initState
        (.card [222, 173]) 0 0).state (.card [222, 173]) 1500 1500).state
        (.card [222, 173]) 3000 3000).requests = [] ∧
    CARD_DEBOUNCE ≤ usub32 3000 0 := by decide

/-- Claim C3, amended: the stored identifier `lastUID` is updated only after
a full request/response cycle and is left unchanged by a suppressed
presentation; the stored timestamp `lastCardRead`, however, is refreshed to
the current time at the end of every `loop` turn whose serial read
succeeded — including a suppressed presentation.  A suppressed presentation
still produces no peer line, no pattern and no request. -/
theorem claim_c3_amended (net : Net) (s : DebState) (uidBytes : List Nat)
    (tRead tDone : Nat)
    (hsup : renderUID uidBytes = s.lastUID ∧ usub32 tRead s.lastCardRead < CARD_DEBOUNCE) :
    (cardStep net s (.card uidBytes) tRead tDone).state.lastUID = s.lastUID ∧
    (cardStep net s (.card uidBytes) tRead tDone).state.lastCardRead = tDone ∧
    (cardStep net s (.card uidBytes) tRead tDone).peer = [] ∧
    (cardStep net s (.card uidBytes) tRead tDone).patterns = [] ∧
    (cardStep net s (.card uidBytes) tRead tDone).requests = [] := by
  simp [cardStep, readRFIDCard, hsup]

/-- Claim C3, witness: a concrete suppressed presentation (card `DEAD`
re-presented 1500 ms after the stored timestamp). -/
theorem claim_c3_witness :
    (cardStep deniedNet { lastUID := "DEAD", lastCardRead := 0 }
        (.card [222, 173]) 1500 1600).state.lastUID = "DEAD" ∧
    (cardStep deniedNet { lastUID := "DEAD", lastCardRead := 0 }
        (.card [222, 173]) 1500 1600).state.lastCardRead = 1600 ∧
    (cardStep deniedNet { lastUID := "DEAD", lastCardRead := 0 }
        (.card [222, 173]) 1500 1600).peer = [] ∧
    (cardStep deniedNet { lastUID := "DEAD", lastCardRead := 0 }
        (.card [222, 173]) 1500 1600).patterns = [] ∧
    (cardStep deniedNet { lastUID := "DEAD", lastCardRead := 0 }
        (.card [222, 173]) 1500 1600).requests = [] :=
  claim_c3_amended deniedNet { lastUID := "DEAD", lastCardRead := 0 }
    [222, 173] 1500 1600 (by decide)

/-- Claim C3, counterexample to the claim as stated: a suppressed
presentation (card `DEAD` re-presented at 1500 ms, within the window of the
stored timestamp 0) leaves the identifier alone but CHANGES the stored
timestamp from 0 to 1500, because line 95 of `loop` runs after every
successful serial read. -/
theorem claim_c3_cex :
    (cardStep deniedNet { lastUID := "DEAD", lastCardRead := 0 }
        (.card [222, 173]) 1500 1500).peer = [] ∧
    (cardStep deniedNet { lastUID := "DEAD", lastCardRead := 0 }
        (.card [222, 173]) 1500 1500).patterns = [] ∧
    (cardStep deniedNet { lastUID := "DEAD", lastCardRead := 0 }
        (.card [222, 173]) 1500 1500).requests = [] ∧
    (cardStep deniedNet { lastUID := "DEAD", lastCardRead := 0 }
        (.card [222, 173]) 1500 1500).state.lastCardRead = 1500 ∧
    (1500 : Nat) ≠ 0 := by decide

/-- Claim C4: when the link is up and the first GET answers 301 or 302,
`httpGET` issues exactly one further GET, to that response's `Location`,
with the same 10000 ms timeout (the request trace is exactly those two), and
the second response is final: its status is the returned code, success means
that status is 200, and the returned body is the second response's — no
third fetch happens even when the second response is itself a redirect
(the trace is the same two requests whatever the second status is). -/
theorem claim_c4 (net : Net) (url resp0 : String)
    (hw : net.wifiConnected = true)
    (hr : (net.fetch url 10000).code = 301 ∨ (net.fetch url 10000).code = 302) :
    (httpGET net url resp0).trace =
      [(url, 10000), ((net.fetch url 10000).location, 10000)] ∧
    (httpGET net url resp0).code =
      (net.fetch (net.fetch url 10000).location 10000).code ∧
    (httpGET net url resp0).ok =
      ((net.fetch (net.fetch url 10000).location 10000).code == 200) ∧
    (httpGET net url resp0).resp =
      (if (net.fetch (net.fetch url 10000).location 10000).code > 0
       then (net.fetch (net.fetch url 10000).location 10000).body else resp0) := by
  rcases hr with h | h <;> simp +decide [httpGET, hw, h]

/-- Claim C4, witness: the chain `"A"` → `"B"` → `"C"` of `hopNet`.  The
engine fetches `"A"` and `"B"` only; `"B"`'s own redirect status 302 is the
final code and `"C"` is never fetched. -/
theorem claim_c4_witness :
    (httpGET hopNet "A" "").trace =
      [("A", 10000), ((hopNet.fetch "A" 10000).location, 10000)] ∧
    (httpGET hopNet "A" "").code =
      (hopNet.fetch (hopNet.fetch "A" 10000).location 10000).code ∧
    (httpGET hopNet "A" "").ok =
      ((hopNet.fetch (hopNet.fetch "A" 10000).location 10000).code == 200) ∧
    (httpGET hopNet "A" "").resp =
      (if (hopNet.fetch (hopNet.fetch "A" 10000).location 10000).code > 0
       then (hopNet.fetch (hopNet.fetch "A" 10000).location 10000).body else "") :=
  claim_c4 hopNet "A" "" rfl (Or.inl (by decide))

/-- Claim C5: with the link down, `httpGET` yields `TransportFailure`
immediately and performs no I/O (the request trace is empty and the result
does not depend on the fetch oracle at all); with the link up, the outcome
is `Success` of the final body exactly when the status after at most one
redirect is 200, and `HttpFailure` with that status for any other status. -/
theorem claim_c5 (net : Net) (url resp0 : String) (f g : String → Nat → HttpResponse) :
    (net.wifiConnected = false →
      requestOutcome net url = .TransportFailure ∧
      (httpGET net url resp0).trace = [] ∧
      httpGET { wifiConnected := false, fetch := f } url resp0 =
        httpGET { wifiConnected := false, fetch := g } url resp0) ∧
    (net.wifiConnected = true →
      ((requestOutcome net url = .Success (finalResponse net url).body) ↔
        (finalResponse net url).code = 200) ∧
      ((finalResponse net url).code ≠ 200 →
        requestOutcome net url = .HttpFailure (finalResponse net url).code)) := by
  constructor
  · intro hw
    refine ⟨?_, ?_, ?_⟩
    · simp [requestOutcome, httpGET, hw]
    · simp [httpGET, hw]
    · simp [httpGET]
  · intro hw
    obtain ⟨hcode, hok, hresp⟩ := httpGET_final net url "" hw
    constructor
    · constructor
      · intro h
        cases hok2 : (httpGET net url "").ok with
        | false => simp [requestOutcome, hok2, hw] at h
        | true =>
            rw [hok2] at hok
            have := hok.symm
            simpa using this
      · intro h
        have hokt : (httpGET net url "").ok = true := by rw [hok, h]; rfl
        have hr : (httpGET net url "").resp = (finalResponse net url).body := by
          rw [hresp, if_pos]
          omega
        simp [requestOutcome, hokt, hr]
    · intro h
      have hokf : (httpGET net url "").ok = false := by
        rw [hok]
        simpa using h
      simp [requestOutcome, hokf, hw, hcode]

/-- Claim C6: an accepted (non-suppressed) presentation commits the debounce
state to exactly (this identifier, the end-of-cycle time), whatever the
network environment — and hence whatever the `AccessResult` — did; and a
re-presentation of the same card within 2000 ms of that committed time is
fully suppressed (no peer line, no pattern, no request). -/
theorem claim_c6 (net net2 : Net) (s : DebState) (uidBytes : List Nat)
    (tRead tDone now2 tDone2 : Nat)
    (hacc : ¬(renderUID uidBytes = s.lastUID ∧ usub32 tRead s.lastCardRead < CARD_DEBOUNCE))
    (hcool : usub32 now2 tDone < CARD_DEBOUNCE) :
    (cardStep net s (.card uidBytes) tRead tDone).state =
      { lastUID := renderUID uidBytes, lastCardRead := tDone } ∧
    (cardStep net2 (cardStep net s (.card uidBytes) tRead tDone).state
        (.card uidBytes) now2 tDone2).peer = [] ∧
    (cardStep net2 (cardStep net s (.card uidBytes) tRead tDone).state
        (.card uidBytes) now2 tDone2).patterns = [] ∧
    (cardStep net2 (cardStep net s (.card uidBytes) tRead tDone).state
        (.card uidBytes) now2 tDone2).requests = [] := by
  have hst : (cardStep net s (.card uidBytes) tRead tDone).state =
      { lastUID := renderUID uidBytes, lastCardRead := tDone } := by
    simp [cardStep, readRFIDCard, hacc]
  refine ⟨hst, ?_, ?_, ?_⟩ <;> rw [hst] <;>
    simp [cardStep, readRFIDCard, hcool]

/-- Claim C6, witness: card `DEADBEEF` presented with the link down (the
request ends in `RequestFailed`), the state is still committed at time 100,
and the same card at time 1500 is suppressed. -/
theorem claim_c6_witness :
    (cardStep downNet initState (.card [222, 173, 190, 239]) 0 100).state =
      { lastUID := renderUID [222, 173, 190, 239], lastCardRead := 100 } ∧
    (cardStep downNet (cardStep downNet initState (.card [222, 173, 190, 239]) 0 100).state
        (.card [222, 173, 190, 239]) 1500 1500).peer = [] ∧
    (cardStep downNet (cardStep downNet initState (.card [222, 173, 190, 239]) 0 100).state
        (.card [222, 173, 190, 239]) 1500 1500).patterns = [] ∧
    (cardStep downNet (cardStep downNet initState (.card [222, 173, 190, 239]) 0 100).state
        (.card [222, 173, 190, 239]) 1500 1500).requests = [] :=
  claim_c6 downNet downNet initState [222, 173, 190, 239] 0 100 1500 1500
    (by decide) (by decide)

/-- Claim C7: every classified card event produces exactly one peer line and
exactly one pattern, and the mapping is Granted ↦ success pattern and
`"Access Granted!"`, Ended ↦ success and `"Session Ended"`, Denied ↦ failure
and `"Access Denied"`, RequestFailed ↦ failure and `"Request Failed"`. -/
theorem claim_c7 (net : Net) (uid : String) :
    (handleRequest net uid).peer.length = 1 ∧
    (handleRequest net uid).patterns.length = 1 ∧
    (classify (httpGET net (requestUrl uid) "").ok (httpGET net (requestUrl uid) "").resp = .Granted →
      (handleRequest net uid).peer = ["Access Granted!"] ∧
      (handleRequest net uid).patterns = [.success]) ∧
    (classify (httpGET net (requestUrl uid) "").ok (httpGET net (requestUrl uid) "").resp = .Ended →
      (handleRequest net uid).peer = ["Session Ended"] ∧
      (handleRequest net uid).patterns = [.success]) ∧
    (classify (httpGET net (requestUrl uid) "").ok (httpGET net (requestUrl uid) "").resp = .Denied →
      (handleRequest net uid).peer = ["Access Denied"] ∧
      (handleRequest net uid).patterns = [.failure]) ∧
    (classify (httpGET net (requestUrl uid) "").ok (httpGET net (requestUrl uid) "").resp = .RequestFailed →
      (handleRequest net uid).peer = ["Request Failed"] ∧
      (handleRequest net uid).patterns = [.failure]) := by
  rw [handleRequest_eq]
  refine ⟨rfl, rfl, ?_, ?_, ?_, ?_⟩ <;> intro h <;> rw [h] <;>
    simp [peerLineFor, patternFor]

/-- Claim C8: `urlEncode` maps each byte independently; a byte in
`[A-Za-z0-9]`, `-`, `_`, `.`, `~` passes through unmodified, every other
byte becomes `%` (37) followed by exactly the two uppercase hexadecimal
digits of its byte value (each nibble below 16, each digit a character in
`0`–`9` or `A`–`F`); and concretely `"DEADBEEF"` and `"RSP505"` encode to
themselves while `" "` encodes to `"%20"`. -/
theorem claim_c8 (s : List Nat) :
    urlEncode s = s.flatMap encodeByte ∧
    (∀ c, SafeByte c → encodeByte c = [c]) ∧
    (∀ c, ¬SafeByte c →
      encodeByte c = [37, hexDigitU (c % 256 / 16), hexDigitU (c % 256 % 16)] ∧
      c % 256 / 16 < 16 ∧ c % 256 % 16 < 16) ∧
    (∀ d, d < 16 →
      (48 ≤ hexDigitU d ∧ hexDigitU d ≤ 57) ∨ (65 ≤ hexDigitU d ∧ hexDigitU d ≤ 70)) ∧
    urlEncodeStr "DEADBEEF" = "DEADBEEF" ∧
    urlEncodeStr "RSP505" = "RSP505" ∧
    urlEncodeStr " " = "%20" := by
  refine ⟨urlEncode_flatMap s, ?_, ?_, ?_, by decide, by decide, by decide⟩
  · intro c hc
    unfold encodeByte
    rw [if_pos ((safe_iff c).mpr hc)]
  · intro c hc
    refine ⟨?_, by omega, by omega⟩
    unfold encodeByte
    rw [if_neg ?_]
    intro h
    exact hc ((safe_iff c).mp h)
  · intro d hd
    unfold hexDigitU
    split <;> omega

/-- Claim C9: `wifiConnect` blocks for at most 20000 ms (20 time-units of
1000 ms in the spec's reference timing model), polls the link at the fixed
500 ms interval (the blocking time is a multiple of 500), returns the final
link state as its success/failure outcome, raises the fault indicator (red
LED) exactly on failure, and does not retry internally: on failure it has
spent exactly the full 20000 ms budget and stops, fault raised. -/
theorem claim_c9 (stat : Nat → Bool) (start : Nat) :
    (wifiConnect stat start).elapsed ≤ 20000 ∧
    (wifiConnect stat start).elapsed % 500 = 0 ∧
    (wifiConnect stat start).connected = stat (start + (wifiConnect stat start).elapsed) ∧
    (wifiConnect stat start).faultRaised = !(wifiConnect stat start).connected ∧
    ((wifiConnect stat start).connected = false →
      (wifiConnect stat start).elapsed = 20000 ∧
      (wifiConnect stat start).faultRaised = true) := by
  obtain ⟨hb, hm, hex⟩ := connectWait_props stat start 20000 0 (by omega) rfl (by omega)
  refine ⟨hb, hm, rfl, rfl, ?_⟩
  intro hcf
  have hcf2 : stat (start + connectWait stat start 0) = false := by
    simpa [wifiConnect] using hcf
  have he : connectWait stat start 0 = 20000 := by
    rcases hex with hst | h20
    · rw [hcf2] at hst
      exact absurd hst (by simp)
    · exact h20
  exact ⟨by simpa [wifiConnect] using he, by simp [wifiConnect, hcf2]⟩

/-- Claim C10: when a new card is detected but `PICC_ReadCardSerial` fails,
the `loop` turn fires the failure pattern and nothing else: no GET request,
no peer line, and the debounce state (identifier and timestamp) is exactly
what it was. -/
theorem claim_c10 (net : Net) (s : DebState) (tRead tDone : Nat) :
    cardStep net s .readFail tRead tDone =
      { state := s, peer := [], patterns := [.failure], requests := [] } := rfl

end Esp
